import Mathlib

/-!
Shallow embedding of the realtime connection layer of the exo desktop client:
the Electron main-process WebSocket client (main.js) and the container
discovery module (scripts/container-integration.js). Event handlers become
pure step functions on an explicit state, with an `Output` record collecting
the observable effects of each step (frames sent, renderer notifications,
error dialogs, scheduled timers).
-/

namespace Exo

/-- main.js: `const MAX_RECONNECT_ATTEMPTS = 5`. -/
def MAX_RECONNECT_ATTEMPTS : Nat := 5

/-- main.js: `const RECONNECT_INTERVAL = 2000` (milliseconds). -/
def RECONNECT_INTERVAL : Nat := 2000

/-- WebSocket readyState values relevant to the client. -/
inductive ReadyState where
  | connecting
  | opened
  | closing
  | closed
deriving DecidableEq

/-- Mutable module-level state of main.js: `wsClient` (presence and readyState),
`isConnected`, `reconnectAttempts`, plus the set of reconnect timers created by
`setTimeout` in the close handler and not yet fired (counted). -/
structure ConnState where
  wsPresent : Bool
  wsReady : ReadyState
  isConnected : Bool
  reconnectAttempts : Nat
  pendingTimers : Nat
deriving DecidableEq

/-- Observable effects of one handler invocation: data handed to
`wsClient.send`, `connection-status` events sent to the renderer, `from-backend`
messages forwarded to the renderer, error dialogs shown, and delays of
reconnect timers scheduled. -/
structure Output where
  sentFrames : List String := []
  statusEvents : List Bool := []
  forwarded : List String := []
  dialogs : Nat := 0
  scheduled : List Nat := []
deriving DecidableEq

/-- wsClient.on open handler (main.js): sets `isConnected = true`, resets
`reconnectAttempts = 0`, notifies the renderer. -/
def handleOpen (s : ConnState) : ConnState × Output :=
  ({ s with wsReady := ReadyState.opened, isConnected := true, reconnectAttempts := 0 },
   { statusEvents := [true] })

/-- wsClient.on close handler (main.js): sets `isConnected = false`, notifies
the renderer, and either schedules one reconnect timer after
`RECONNECT_INTERVAL` (when `reconnectAttempts < MAX_RECONNECT_ATTEMPTS`,
incrementing the counter) or shows the connection-error dialog. -/
def handleClose (s : ConnState) : ConnState × Output :=
  let s1 := { s with isConnected := false, wsReady := ReadyState.closed }
  if s.reconnectAttempts < MAX_RECONNECT_ATTEMPTS then
    ({ s1 with reconnectAttempts := s.reconnectAttempts + 1,
               pendingTimers := s.pendingTimers + 1 },
     { statusEvents := [false], scheduled := [RECONNECT_INTERVAL] })
  else
    (s1, { statusEvents := [false], dialogs := 1 })

/-- wsClient.on message handler (main.js): `JSON.parse` inside try/catch; on
success the value is forwarded to the renderer, on failure the error is logged
and the frame dropped. The parser is passed in as `decode`. -/
def handleMessage (decode : String → Option String) (s : ConnState) (frame : String) :
    ConnState × Output :=
  match decode frame with
  | some d => (s, { forwarded := [d] })
  | none => (s, {})

/-- Process a list of received frames in order, collecting everything forwarded
to the renderer. -/
def processFrames (decode : String → Option String) (s : ConnState) :
    List String → ConnState × List String
  | [] => (s, [])
  | f :: fs =>
    let r1 := handleMessage decode s f
    let r2 := processFrames decode r1.1 fs
    (r2.1, r1.2.forwarded ++ r2.2)

/-- ipcMain.on to-backend handler (main.js): if the socket exists and is OPEN
the data is sent; otherwise a warning is logged and, when
`reconnectAttempts === 0`, the connection-error dialog is shown. The data is
not retained in either case. -/
def toBackend (s : ConnState) (data : String) : ConnState × Output :=
  if s.wsPresent = true ∧ s.wsReady = ReadyState.opened then
    (s, { sentFrames := [data] })
  else if s.reconnectAttempts = 0 then
    (s, { dialogs := 1 })
  else
    (s, {})

/-- disconnectFromContainer (main.js): closes the socket if open, nulls
`wsClient`, and sets `isConnected = false`. It does not touch
`reconnectAttempts` and clears no timer. -/
def disconnectFromContainer (s : ConnState) : ConnState × Output :=
  ({ s with wsPresent := false, isConnected := false }, {})

/-- connectToContainerWebSocket, success path (main.js): first calls
`disconnectFromContainer`, then creates a fresh socket in the connecting
state. -/
def connectToContainerWebSocket (s : ConnState) : ConnState × Output :=
  let s1 := (disconnectFromContainer s).1
  ({ s1 with wsPresent := true, wsReady := ReadyState.connecting }, {})

/-- One pending reconnect timer fires:
`setTimeout(() => connectToContainerWebSocket(url), RECONNECT_INTERVAL)`. -/
def fireReconnectTimer (s : ConnState) : ConnState × Output :=
  connectToContainerWebSocket { s with pendingTimers := s.pendingTimers - 1 }

/-- One failed reconnect attempt: the pending timer fires (starting a connect)
and the attempt ends with a close event. -/
def failedAttempt (s : ConnState) : ConnState × Output :=
  handleClose (fireReconnectTimer s).1

/-- Iterate `failedAttempt` n times, keeping only the state. -/
def failedAttempts : Nat → ConnState → ConnState
  | 0, s => s
  | n + 1, s => failedAttempts n (failedAttempt s).1

/-- State after the initial drop (close event of the live connection) followed
by n failed reconnect attempts. -/
def afterFailures (s : ConnState) (n : Nat) : ConnState :=
  failedAttempts n (handleClose s).1

/-- Output of the close event that ends the n-th failed reconnect attempt
(1-based) after an initial drop from state `s`. -/
def failureOutput (s : ConnState) (n : Nat) : Output :=
  (failedAttempt (afterFailures s (n - 1))).2

/-- Canonical freshly connected session state. -/
def connectedState : ConnState :=
  { wsPresent := true, wsReady := ReadyState.opened, isConnected := true,
    reconnectAttempts := 0, pendingTimers := 0 }

/-- A session that dropped once and has one reconnect timer pending. -/
def stalledState : ConnState :=
  { wsPresent := true, wsReady := ReadyState.closed, isConnected := false,
    reconnectAttempts := 1, pendingTimers := 1 }

/-- A session in the middle of a reconnect window (socket gone, one attempt
already counted, one timer pending). -/
def droppedState : ConnState :=
  { wsPresent := false, wsReady := ReadyState.closed, isConnected := false,
    reconnectAttempts := 1, pendingTimers := 1 }

/-- Sample message a user might type during a reconnect window. -/
def helloMsg : String := "hello"

/-- A session whose retry budget is already exhausted (terminal Failed). -/
def exhaustedState : ConnState :=
  { wsPresent := true, wsReady := ReadyState.closed, isConnected := false,
    reconnectAttempts := MAX_RECONNECT_ATTEMPTS, pendingTimers := 0 }

/-!
Discovery module: scripts/container-integration.js and its caller
`checkContainerConnection` in main.js.
-/

/-- container-integration.js: the persisted configuration object
(`container-config.json`); `lastContainer` is `null` or a container id. -/
structure Config where
  containerHost : String
  containerPort : Nat
  websocketPort : Nat
  autoConnect : Bool
  lastContainer : Option String
deriving DecidableEq

/-- One line of `docker ps` output as parsed by `listContainers`. -/
structure Container where
  id : String
  name : String
  image : String
  status : String
deriving DecidableEq

/-- External collaborators of the discovery module: `docker inspect` (the
container's IP, `none` when the command fails) and the TCP stack.
`connectTime host port` is the time in milliseconds at which a TCP connect to
the port would succeed, `none` if the connect errors out instead. -/
structure DiscoveryEnv where
  containerIP : String → Option String
  connectTime : String → Nat → Option Nat

/-- checkPort (container-integration.js): timeout constant of the probe. -/
def CHECK_PORT_TIMEOUT : Nat := 1000

/-- checkPort (container-integration.js): resolves true exactly when the TCP
connect callback fires before the 1000 ms timeout destroys the socket. -/
def checkPort (env : DiscoveryEnv) (host : String) (port : Nat) : Bool :=
  match env.connectTime host port with
  | some t => decide (t < CHECK_PORT_TIMEOUT)
  | none => false

/-- getContainerIP (container-integration.js): the trimmed `docker inspect`
output; an empty string is falsy in the caller's check, so it counts as
failure. -/
def getContainerIP (env : DiscoveryEnv) (containerId : String) : Option String :=
  match env.containerIP containerId with
  | some ip => if ip = "" then none else some ip
  | none => none

/-- Connection info returned by a successful `connectToContainer`. -/
structure ConnectionInfo where
  webUrl : String
  websocketUrl : String
deriving DecidableEq

/-- Observable effects of the discovery path: `saveConfig` writes and the
hand-off of a resolved WebSocket address to `connectToContainerWebSocket`. -/
inductive DEvent where
  | savedConfig (c : Config)
  | openedTransport (url : String)
deriving DecidableEq

/-- Result of `connectToContainer`: its return value or thrown error, the
configuration object after the call (it is mutated in place in JS), and the
events it performed. -/
structure ConnectOutcome where
  result : Except String ConnectionInfo
  config : Config
  events : List DEvent

/-- Boolean success test for an `Except` result. -/
def resultOk {ε α : Type} : Except ε α → Bool
  | Except.ok _ => true
  | Except.error _ => false

def errNoIP : String := "Failed to get container IP address"

def errWebPort : String := "Web server port is not open on the container"

def errWsPort : String := "WebSocket port is not open on the container"

def httpPrefix : String := "http://"

def wsPrefix : String := "ws://"

def colonStr : String := ":"

/-- connectToContainer (container-integration.js): resolve the container IP,
probe the web server port then the WebSocket port, and only after both probes
succeed mutate `containerHost` and `lastContainer` and call `saveConfig`,
returning the resolved URLs. Any failure throws before any mutation. -/
def connectToContainer (env : DiscoveryEnv) (containerId : String) (cfg : Config) :
    ConnectOutcome :=
  match getContainerIP env containerId with
  | none => ⟨Except.error errNoIP, cfg, []⟩
  | some ip =>
    if checkPort env ip cfg.containerPort = true then
      if checkPort env ip cfg.websocketPort = true then
        let cfg2 := { cfg with containerHost := ip, lastContainer := some containerId }
        ⟨Except.ok { webUrl := httpPrefix ++ ip ++ colonStr ++ toString cfg.containerPort,
                     websocketUrl := wsPrefix ++ ip ++ colonStr ++ toString cfg.websocketPort },
         cfg2, [DEvent.savedConfig cfg2]⟩
      else ⟨Except.error errWsPort, cfg, []⟩
    else ⟨Except.error errWebPort, cfg, []⟩

/-- Caller path in main.js: on success the resolved `websocketUrl` is handed
to `connectToContainerWebSocket` right after `connectToContainer` returns. -/
def connectAndOpen (env : DiscoveryEnv) (cfg : Config) (containerId : String) :
    Config × List DEvent :=
  let o := connectToContainer env containerId cfg
  match o.result with
  | Except.ok info => (o.config, o.events ++ [DEvent.openedTransport info.websocketUrl])
  | Except.error _ => (o.config, o.events)

/-- Outcome of `checkContainerConnection` (main.js): the Docker-missing error
box, an automatic connection to the last-used container, or the container
selection dialog. -/
inductive Decision where
  | dockerError
  | autoConnected (containerId : String) (url : String)
  | selectionDialog
deriving DecidableEq

/-- checkContainerConnection (main.js): if Docker is missing show an error;
otherwise, when `autoConnect` is set and the last-used container id is among
the running containers, try `connectToContainer` on it and adopt its WebSocket
URL; in every other case (including a caught connect error) fall through to
the container selection dialog. -/
def checkContainerConnection (dockerInstalled : Bool) (cfg : Config)
    (containers : List Container) (env : DiscoveryEnv) : Decision :=
  if dockerInstalled = false then Decision.dockerError
  else
    match cfg.lastContainer with
    | some lastId =>
      if cfg.autoConnect = true ∧ containers.any (fun c => c.id == lastId) = true then
        match (connectToContainer env lastId cfg).result with
        | Except.ok info => Decision.autoConnected lastId info.websocketUrl
        | Except.error _ => Decision.selectionDialog
      else Decision.selectionDialog
    | none => Decision.selectionDialog

/-- Spec's eligibility notion (stated for comparison with the code's
selection policy): a candidate is eligible when its IP resolves and every
required port — web server and WebSocket — responds within the probe
timeout. -/
def eligibleSpec (env : DiscoveryEnv) (cfg : Config) (c : Container) : Bool :=
  match getContainerIP env c.id with
  | some ip => checkPort env ip cfg.containerPort && checkPort env ip cfg.websocketPort
  | none => false

def idA : String := "a"

def idB : String := "b"

def ipA : String := "10.0.0.1"

def ipB : String := "10.0.0.2"

/-- Configuration whose durable last-used container is `idA`. -/
def cfgLast : Config :=
  { containerHost := "localhost", containerPort := 8080, websocketPort := 8765,
    autoConnect := true, lastContainer := some idA }

def containerA : Container :=
  { id := idA, name := "exo-one", image := "exo:latest", status := "Up" }

def containerB : Container :=
  { id := idB, name := "exo-two", image := "exo:latest", status := "Up" }

/-- Two running containers. -/
def containersTwo : List Container := [containerA, containerB]

/-- Environment where both containers resolve and every port connects after
5 ms — both candidates are eligible. -/
def envTwo : DiscoveryEnv :=
  { containerIP := fun i => if i = idA then some ipA else if i = idB then some ipB else none,
    connectTime := fun _ _ => some 5 }

/-- Environment where every container resolves to `ipA` and every port
connects after 5 ms. -/
def envOk : DiscoveryEnv :=
  { containerIP := fun _ => some ipA,
    connectTime := fun _ _ => some 5 }

/-- Environment where `docker inspect` fails and no port ever connects. -/
def envDown : DiscoveryEnv :=
  { containerIP := fun _ => none,
    connectTime := fun _ _ => none }

/-- A decoder for the message handler that accepts exactly one frame. -/
def goodFrame : String := "good"

def badFrame : String := "this is not json"

def decodeExample (f : String) : Option String :=
  if f = goodFrame then some goodFrame else none

/-!
Theorems.
-/

/-- C1 counterexample: in the reconnect window `droppedState`, a send of
`helloMsg` hands nothing to the transport and changes no state, and the next
opened event flushes nothing either — the envelope is discarded even though
no buffer could have overflowed, contradicting the claimed buffered FIFO
delivery. -/
theorem C1_counterexample :
    ((toBackend droppedState helloMsg).2).sentFrames = [] ∧
    (toBackend droppedState helloMsg).1 = droppedState ∧
    ((handleOpen ((toBackend droppedState helloMsg).1)).2).sentFrames = [] ∧
    ¬ ((handleOpen ((toBackend droppedState helloMsg).1)).2).sentFrames = [helloMsg] := by
  decide

/-- C1 (amended): a `send` made while the WebSocket is not open is discarded
immediately — the state is unchanged, nothing reaches the transport, a
connection-error dialog is shown exactly when no reconnection is in progress
(`reconnectAttempts = 0`) — and the opened event never flushes any frame. -/
theorem C1_send_dropped (s : ConnState) (m : String)
    (h : ¬ (s.wsPresent = true ∧ s.wsReady = ReadyState.opened)) :
    (toBackend s m).1 = s ∧ ((toBackend s m).2).sentFrames = [] ∧
    ((toBackend s m).2).dialogs = (if s.reconnectAttempts = 0 then 1 else 0) ∧
    ∀ t : ConnState, ((handleOpen t).2).sentFrames = [] := by
  refine ⟨?_, ?_, ?_, fun t => rfl⟩ <;>
    · unfold toBackend
      rw [if_neg h]
      by_cases h0 : s.reconnectAttempts = 0 <;> simp [h0]

/-- C1 witness: the amended statement evaluated in the reconnect window. -/
theorem C1_send_dropped_witness :
    (¬ (droppedState.wsPresent = true ∧ droppedState.wsReady = ReadyState.opened)) ∧
    ((toBackend droppedState helloMsg).1 = droppedState ∧
     ((toBackend droppedState helloMsg).2).sentFrames = [] ∧
     ((toBackend droppedState helloMsg).2).dialogs =
       (if droppedState.reconnectAttempts = 0 then 1 else 0) ∧
     ∀ t : ConnState, ((handleOpen t).2).sentFrames = []) :=
  ⟨by decide, C1_send_dropped droppedState helloMsg (by decide)⟩

/-- C3 counterexample: after a drop from the connected state, the delay
scheduled before the first reconnect attempt and the delay scheduled before
the second are both `RECONNECT_INTERVAL`; no pair of consecutive delays is
strictly increasing. -/
theorem C3_counterexample :
    ((handleClose connectedState).2).scheduled = [RECONNECT_INTERVAL] ∧
    (failureOutput connectedState 1).scheduled = [RECONNECT_INTERVAL] ∧
    ¬ ∃ d1 d2, ((handleClose connectedState).2).scheduled = [d1] ∧
        (failureOutput connectedState 1).scheduled = [d2] ∧ d1 < d2 := by
  refine ⟨by decide, by decide, ?_⟩
  rintro ⟨d1, d2, h1, h2, hlt⟩
  have e1 : ((handleClose connectedState).2).scheduled = [2000] := by decide
  have e2 : (failureOutput connectedState 1).scheduled = [2000] := by decide
  rw [e1] at h1
  rw [e2] at h2
  simp at h1 h2
  omega

/-- C3 (amended): every close event schedules at most one reconnect timer, and
its delay is always the constant `RECONNECT_INTERVAL` (2000 ms) — the delay
never grows. -/
theorem C3_constant_delay (s : ConnState) :
    ((handleClose s).2).scheduled =
      (if s.reconnectAttempts < MAX_RECONNECT_ATTEMPTS then [RECONNECT_INTERVAL] else []) := by
  unfold handleClose
  by_cases h : s.reconnectAttempts < MAX_RECONNECT_ATTEMPTS <;> simp [h]

/-- C4 counterexample: from `stalledState` (one reconnect timer pending),
calling close twice leaves the timer pending, and when it fires a fresh
connection attempt starts — close does not cancel pending reconnection
timers. -/
theorem C4_counterexample :
    ((disconnectFromContainer ((disconnectFromContainer stalledState).1)).1).pendingTimers = 1 ∧
    ((fireReconnectTimer
        ((disconnectFromContainer ((disconnectFromContainer stalledState).1)).1)).1).wsReady =
      ReadyState.connecting ∧
    ((fireReconnectTimer
        ((disconnectFromContainer ((disconnectFromContainer stalledState).1)).1)).1).wsPresent =
      true ∧
    ¬ ((disconnectFromContainer ((disconnectFromContainer stalledState).1)).1).pendingTimers = 0 := by
  decide

/-- C4 (amended): close is idempotent — from every prior state it yields the
disconnected state, a second close changes nothing and emits nothing — but it
leaves every pending reconnection timer in place. -/
theorem C4_close_idempotent (s : ConnState) :
    ((disconnectFromContainer s).1).isConnected = false ∧
    (disconnectFromContainer s).2 = ({} : Output) ∧
    disconnectFromContainer ((disconnectFromContainer s).1) =
      ((disconnectFromContainer s).1, ({} : Output)) ∧
    ((disconnectFromContainer s).1).pendingTimers = s.pendingTimers := by
  obtain ⟨wp, wr, ic, ra, pt⟩ := s
  exact ⟨rfl, rfl, rfl, rfl⟩

/-- C6: a frame that fails to decode is dropped with no other effect — the
handler returns the state unchanged (the channel stays open) and forwards
nothing, and processing any subsequent frames proceeds exactly as if the
malformed frame had never arrived. -/
theorem C6_malformed_nonfatal (decode : String → Option String) (s : ConnState)
    (frame : String) (h : decode frame = none) :
    handleMessage decode s frame = (s, ({} : Output)) ∧
    ∀ rest : List String,
      processFrames decode s (frame :: rest) = processFrames decode s rest := by
  have h1 : handleMessage decode s frame = (s, ({} : Output)) := by
    unfold handleMessage
    rw [h]
  refine ⟨h1, fun rest => ?_⟩
  simp [processFrames, h1]

/-- C6 witness: the malformed-frame behaviour evaluated on a concrete decoder
and frame. -/
theorem C6_malformed_nonfatal_witness :
    decodeExample badFrame = none ∧
    (handleMessage decodeExample connectedState badFrame = (connectedState, ({} : Output)) ∧
     ∀ rest : List String,
       processFrames decodeExample connectedState (badFrame :: rest) =
         processFrames decodeExample connectedState rest) :=
  ⟨by decide, C6_malformed_nonfatal decodeExample connectedState badFrame (by decide)⟩

/-- C2 counterexample: starting from the connected state with every reconnect
attempt failing, the close ending the 5th attempt shows the terminal
connection-error dialog and schedules nothing, the 4th did not, and no timer
remains — so no 6th attempt can ever fire, contradicting "Failed exactly on
the 6th consecutive failed attempt". -/
theorem C2_counterexample :
    (failureOutput connectedState 5).dialogs = 1 ∧
    (failureOutput connectedState 5).scheduled = ([] : List Nat) ∧
    (afterFailures connectedState 5).pendingTimers = 0 ∧
    (failureOutput connectedState 4).dialogs = 0 ∧
    (failureOutput connectedState 4).scheduled = [RECONNECT_INTERVAL] ∧
    ¬ ((failureOutput connectedState 5).dialogs = 0 ∧
       (failureOutput connectedState 5).scheduled = [RECONNECT_INTERVAL]) := by
  decide

/-- C2 (amended): starting from a freshly connected session (attempt counter
zero, no timer pending) whose reconnect attempts all fail, each of the first
four failures schedules another attempt, the 5th failure
(`MAX_RECONNECT_ATTEMPTS`) shows the terminal error dialog and schedules
nothing, and afterwards no reconnect timer is pending. -/
theorem C2_failed_on_fifth (s : ConnState) (h1 : s.reconnectAttempts = 0)
    (h2 : s.pendingTimers = 0) :
    (∀ k, 1 ≤ k → k < MAX_RECONNECT_ATTEMPTS →
      (failureOutput s k).dialogs = 0 ∧
      (failureOutput s k).scheduled = [RECONNECT_INTERVAL]) ∧
    (failureOutput s MAX_RECONNECT_ATTEMPTS).dialogs = 1 ∧
    (failureOutput s MAX_RECONNECT_ATTEMPTS).scheduled = [] ∧
    (afterFailures s MAX_RECONNECT_ATTEMPTS).pendingTimers = 0 := by
  obtain ⟨wp, wr, ic, ra, pt⟩ := s
  have h1' : ra = 0 := h1
  have h2' : pt = 0 := h2
  subst h1'
  subst h2'
  refine ⟨?_, ?_⟩
  · intro k hk1 hk5
    simp only [MAX_RECONNECT_ATTEMPTS] at hk5
    interval_cases k <;> cases wp <;> cases wr <;> cases ic <;> decide
  · cases wp <;> cases wr <;> cases ic <;> decide

/-- C2 witness: the amended retry-budget behaviour evaluated from the
canonical connected state. -/
theorem C2_failed_on_fifth_witness :
    connectedState.reconnectAttempts = 0 ∧ connectedState.pendingTimers = 0 ∧
    ((∀ k, 1 ≤ k → k < MAX_RECONNECT_ATTEMPTS →
        (failureOutput connectedState k).dialogs = 0 ∧
        (failureOutput connectedState k).scheduled = [RECONNECT_INTERVAL]) ∧
      (failureOutput connectedState MAX_RECONNECT_ATTEMPTS).dialogs = 1 ∧
      (failureOutput connectedState MAX_RECONNECT_ATTEMPTS).scheduled = [] ∧
      (afterFailures connectedState MAX_RECONNECT_ATTEMPTS).pendingTimers = 0) :=
  ⟨rfl, rfl, C2_failed_on_fifth connectedState rfl rfl⟩

/-- C9: the opened event resets the attempt counter to zero, so after any
successful open — even from a session that had exhausted its budget — a new
outage again has the full budget: the first four failed attempts keep
retrying and only the 5th (`MAX_RECONNECT_ATTEMPTS`) is terminal. -/
theorem C9_reset_on_open (s : ConnState) (h : s.pendingTimers = 0) :
    ((handleOpen s).1).reconnectAttempts = 0 ∧
    (∀ k, 1 ≤ k → k < MAX_RECONNECT_ATTEMPTS →
      (failureOutput ((handleOpen s).1) k).dialogs = 0 ∧
      (failureOutput ((handleOpen s).1) k).scheduled = [RECONNECT_INTERVAL]) ∧
    (failureOutput ((handleOpen s).1) MAX_RECONNECT_ATTEMPTS).dialogs = 1 := by
  obtain ⟨wp, wr, ic, ra, pt⟩ := s
  have h' : pt = 0 := h
  subst h'
  have e : (handleOpen ⟨wp, wr, ic, ra, 0⟩).1 =
      (⟨wp, ReadyState.opened, true, 0, 0⟩ : ConnState) := rfl
  rw [e]
  refine ⟨rfl, ?_, ?_⟩
  · intro k hk1 hk5
    simp only [MAX_RECONNECT_ATTEMPTS] at hk5
    interval_cases k <;> cases wp <;> decide
  · cases wp <;> decide

/-- C9 witness: the reset evaluated on a session whose budget was already
exhausted before the open. -/
theorem C9_reset_on_open_witness :
    exhaustedState.pendingTimers = 0 ∧
    (((handleOpen exhaustedState).1).reconnectAttempts = 0 ∧
     (∀ k, 1 ≤ k → k < MAX_RECONNECT_ATTEMPTS →
       (failureOutput ((handleOpen exhaustedState).1) k).dialogs = 0 ∧
       (failureOutput ((handleOpen exhaustedState).1) k).scheduled = [RECONNECT_INTERVAL]) ∧
     (failureOutput ((handleOpen exhaustedState).1) MAX_RECONNECT_ATTEMPTS).dialogs = 1) :=
  ⟨rfl, C9_reset_on_open exhaustedState rfl⟩

/-- C5 counterexample: with two running containers, both eligible in the
spec's sense, and the last-used identity matching one of them, the code
auto-selects it without prompting — although more than one eligible candidate
exists, the selection dialog is not shown. -/
theorem C5_counterexample :
    List.countP (fun c => eligibleSpec envTwo cfgLast c) containersTwo = 2 ∧
    (∃ u, checkContainerConnection true cfgLast containersTwo envTwo =
        Decision.autoConnected idA u) ∧
    checkContainerConnection true cfgLast containersTwo envTwo ≠ Decision.selectionDialog := by
  refine ⟨by decide, ⟨wsPrefix ++ ipA ++ colonStr ++ toString (8765 : Nat), by decide⟩, by decide⟩

/-- C5 (amended): the code auto-selects a container exactly when Docker is
installed, `autoConnect` is set, the durably stored last-used id is among the
running containers, and `connectToContainer` on that id succeeds — the number
of other (eligible) candidates plays no role; in every other case with Docker
installed the selection dialog is shown. -/
theorem C5_autoselect_iff (d : Bool) (cfg : Config) (cs : List Container)
    (env : DiscoveryEnv) (lastId : String) :
    (∃ u, checkContainerConnection d cfg cs env = Decision.autoConnected lastId u) ↔
      (d = true ∧ cfg.autoConnect = true ∧ cfg.lastContainer = some lastId ∧
        cs.any (fun c => c.id == lastId) = true ∧
        resultOk (connectToContainer env lastId cfg).result = true) := by
  constructor
  · rintro ⟨u, hu⟩
    cases d with
    | false => simp [checkContainerConnection] at hu
    | true =>
      cases hLast : cfg.lastContainer with
      | none => simp [checkContainerConnection, hLast] at hu
      | some l =>
        cases hac : cfg.autoConnect with
        | false => simp [checkContainerConnection, hLast, hac] at hu
        | true =>
          cases hany : cs.any (fun c => c.id == l) with
          | false => simp [checkContainerConnection, hLast, hac, hany] at hu
          | true =>
            cases hr : (connectToContainer env l cfg).result with
            | ok info =>
              simp [checkContainerConnection, hLast, hac, hany, hr] at hu
              obtain ⟨hl, -⟩ := hu
              subst hl
              exact ⟨rfl, rfl, rfl, hany, by simp [hr, resultOk]⟩
            | error e =>
              simp [checkContainerConnection, hLast, hac, hany, hr] at hu
  · rintro ⟨hd, ha, hl, hany, hok⟩
    subst hd
    cases hr : (connectToContainer env lastId cfg).result with
    | error e =>
      rw [hr] at hok
      simp [resultOk] at hok
    | ok info =>
      exact ⟨info.websocketUrl, by simp [checkContainerConnection, hl, ha, hany, hr]⟩

/-- C7: `connectToContainer` succeeds exactly when the container IP can be
determined and both required ports — web server and WebSocket — accept a TCP
connect; and a port probe succeeds exactly when the connect completes within
the 1000 ms timeout. On any failure an error is thrown and no address is
produced. -/
theorem C7_connect_iff (env : DiscoveryEnv) (containerId : String) (cfg : Config) :
    (resultOk (connectToContainer env containerId cfg).result = true ↔
      ∃ ip, getContainerIP env containerId = some ip ∧
        checkPort env ip cfg.containerPort = true ∧
        checkPort env ip cfg.websocketPort = true) ∧
    (∀ host port, checkPort env host port = true ↔
      ∃ t, env.connectTime host port = some t ∧ t < CHECK_PORT_TIMEOUT) := by
  constructor
  · cases hip : getContainerIP env containerId with
    | none => simp [connectToContainer, hip, resultOk]
    | some ip =>
      by_cases h1 : checkPort env ip cfg.containerPort = true
      · by_cases h2 : checkPort env ip cfg.websocketPort = true
        · simp [connectToContainer, hip, h1, h2, resultOk]
        · simp [connectToContainer, hip, h1, h2, resultOk]
      · simp [connectToContainer, hip, h1, resultOk]
  · intro host port
    unfold checkPort
    cases hc : env.connectTime host port with
    | none => simp
    | some t => simp

/-- C8: whenever `connectToContainer` succeeds, the run of the caller emits
exactly a `saveConfig` of a configuration whose `lastContainer` is the chosen
id, followed by the hand-off of the resolved WebSocket address — the identity
is persisted before the transport is opened. -/
theorem C8_persist_before_open (env : DiscoveryEnv) (cfg : Config) (containerId : String)
    (h : resultOk (connectToContainer env containerId cfg).result = true) :
    ∃ c u, (connectAndOpen env cfg containerId).2 =
        [DEvent.savedConfig c, DEvent.openedTransport u] ∧
      c.lastContainer = some containerId := by
  cases hip : getContainerIP env containerId with
  | none => simp [connectToContainer, hip, resultOk] at h
  | some ip =>
    by_cases h1 : checkPort env ip cfg.containerPort = true
    · by_cases h2 : checkPort env ip cfg.websocketPort = true
      · refine ⟨{ cfg with containerHost := ip, lastContainer := some containerId },
          wsPrefix ++ ip ++ colonStr ++ toString cfg.websocketPort, ?_, rfl⟩
        simp [connectAndOpen, connectToContainer, hip, h1, h2]
      · simp [connectToContainer, hip, h1, h2, resultOk] at h
    · simp [connectToContainer, hip, h1, resultOk] at h

/-- C8 witness: the persist-before-open ordering evaluated in an environment
where discovery succeeds. -/
theorem C8_persist_before_open_witness :
    resultOk (connectToContainer envOk idA cfgLast).result = true ∧
    (∃ c u, (connectAndOpen envOk cfgLast idA).2 =
        [DEvent.savedConfig c, DEvent.openedTransport u] ∧
      c.lastContainer = some idA) :=
  ⟨by decide, C8_persist_before_open envOk cfgLast idA (by decide)⟩

/-- C10: whenever `connectToContainer` fails — IP not determinable or a port
probe failing — the configuration object is unchanged and no `saveConfig`
write happens. -/
theorem C10_config_untouched_on_error (env : DiscoveryEnv) (cfg : Config)
    (containerId : String)
    (h : resultOk (connectToContainer env containerId cfg).result = false) :
    (connectToContainer env containerId cfg).config = cfg ∧
    (connectToContainer env containerId cfg).events = [] := by
  cases hip : getContainerIP env containerId with
  | none => simp [connectToContainer, hip]
  | some ip =>
    by_cases h1 : checkPort env ip cfg.containerPort = true
    · by_cases h2 : checkPort env ip cfg.websocketPort = true
      · simp [connectToContainer, hip, h1, h2, resultOk] at h
      · simp [connectToContainer, hip, h1, h2]
    · simp [connectToContainer, hip, h1]

/-- C10 witness: the no-mutation-on-error property evaluated in an environment
where discovery fails. -/
theorem C10_config_untouched_on_error_witness :
    resultOk (connectToContainer envDown idA cfgLast).result = false ∧
    ((connectToContainer envDown idA cfgLast).config = cfgLast ∧
     (connectToContainer envDown idA cfgLast).events = []) :=
  ⟨by decide, C10_config_untouched_on_error envDown cfgLast idA (by decide)⟩

end Exo
